import Mathlib

/-!
Shallow embedding of the Starlight payment-channel FSM message handlers
(`src/starlight/fsm/msg.go`) and outbound-message constructors
(`src/unnamed/part_000`, package fsm).

Modelling conventions:
* `xlm.Amount` (int64) and `xdr.SequenceNumber` (int64) are modelled as `Int`;
  `time.Time` and `time.Duration` are modelled as `Int` instants/spans with
  `After`/`Before` as strict `<`, `Add` as `+`.
* `uint64` round numbers and message indices are modelled as `Nat`.
* Ledger account ids and keys are `String`; opaque transactions produced by
  the (out-of-scope) transaction builders are `Nat`.
* Helpers that are not part of this repository slice (keypair parsing, the
  transaction builders, signature verification and signing, and the channel
  methods `signRatchetTx`, `setLatestSettlementTxes`,
  `setCounterpartySettlementTxes`) are modelled as an oracle record `Env`
  whose fallible operations return `Except Nat`; a `Nat` code stands for an
  opaque external error.  Handlers embed such errors via `Err.ext` and wrap
  them exactly where the Go code calls `errors.Wrap`.
* Go handlers mutate `u.C` in place, so each handler returns the error
  outcome *together with* the final channel record (`HRes`).
-/

/-- Channel role, `Role` in the source (`Host` funds and initiates). -/
inductive Role where
  | Host
  | Guest
deriving DecidableEq, Repr

/-- FSM states of a channel (spec section 4.2). -/
inductive State where
  | Start
  | SettingUp
  | ChannelProposed
  | AwaitingFunding
  | AwaitingCleanup
  | Funded
  | Open
  | PaymentProposed
  | PaymentAccepted
  | AwaitingPaymentMerge
  | AwaitingClose
  | AwaitingSettlementMintime
  | AwaitingSettlement
  | Closed
deriving DecidableEq, Repr

/-- `xdr.DecoratedSignature`; `Signature = none` models a nil signature
slice, the Go zero value. -/
structure DecoratedSignature where
  Signature : Option Nat
deriving DecidableEq, Repr

/-- The zero value of `xdr.DecoratedSignature`. -/
def zeroSig : DecoratedSignature := ⟨none⟩

/-- The per-channel record (`Channel`), restricted to the fields the
handlers and constructors in the sources read or write.  `CurrentRatchetTx`
is the field written by `signRatchetTx` (spec section 4.5 step 5). -/
structure Channel where
  ID : String := ""
  Role : Role := Role.Host
  State : State := State.Start
  HostAmount : Int := 0
  GuestAmount : Int := 0
  ChannelFeerate : Int := 0
  MaxRoundDuration : Int := 0
  FinalityDelay : Int := 0
  FundingTime : Int := 0
  PaymentTime : Int := 0
  PendingPaymentTime : Int := 0
  HostAcct : String := ""
  GuestAcct : String := ""
  EscrowAcct : String := ""
  HostRatchetAcct : String := ""
  GuestRatchetAcct : String := ""
  BaseSequenceNumber : Int := 0
  HostRatchetAcctSeqNum : Int := 0
  GuestRatchetAcctSeqNum : Int := 0
  FundingTxSeqnum : Int := 0
  RoundNumber : Nat := 0
  PendingAmountSent : Int := 0
  PendingAmountReceived : Int := 0
  CurrentRatchetTx : Nat := 0
  CurrentSettleWithGuestTx : Nat := 0
  CurrentSettleWithHostTx : Nat := 0
  CounterpartyLatestSettleWithGuestTx : Nat := 0
  CounterpartyLatestSettleWithHostTx : Nat := 0
  CounterpartyCoopCloseSig : DecoratedSignature := zeroSig
  KeyIndex : Nat := 0
  Passphrase : String := ""
  CounterpartyAddress : String := ""
  LastMsgIndex : Nat := 0
deriving DecidableEq, Repr

/-- The Go zero value `Channel{}` (the model's `Role` default stands for the
Go zero role, which the sources never read before assigning). -/
def zeroChannel : Channel := {}

/-- `ChannelProposeMsg`. -/
structure ChannelProposeMsg where
  HostAcct : String
  GuestAcct : String
  HostRatchetAcct : String
  GuestRatchetAcct : String
  MaxRoundDuration : Int
  FinalityDelay : Int
  BaseSequenceNumber : Int
  HostAmount : Int
  Feerate : Int
  FundingTime : Int
deriving DecidableEq, Repr

/-- `ChannelAcceptMsg`. -/
structure ChannelAcceptMsg where
  GuestRatchetRound1Sig : DecoratedSignature
  GuestSettleOnlyWithHostSig : DecoratedSignature
deriving DecidableEq, Repr

/-- `PaymentProposeMsg`. -/
structure PaymentProposeMsg where
  RoundNumber : Nat
  PaymentTime : Int
  PaymentAmount : Int
  SenderSettleWithGuestSig : DecoratedSignature
  SenderSettleWithHostSig : DecoratedSignature
deriving DecidableEq, Repr

/-- `PaymentAcceptMsg`; `RecipientSettleWithGuestSig` is a pointer in the
source, modelled as `Option`. -/
structure PaymentAcceptMsg where
  RoundNumber : Nat
  RecipientRatchetSig : DecoratedSignature
  RecipientSettleWithGuestSig : Option DecoratedSignature
  RecipientSettleWithHostSig : DecoratedSignature
deriving DecidableEq, Repr

/-- `PaymentCompleteMsg`. -/
structure PaymentCompleteMsg where
  RoundNumber : Nat
  SenderRatchetSig : DecoratedSignature
deriving DecidableEq, Repr

/-- `CloseMsg`. -/
structure CloseMsg where
  CooperativeCloseSig : DecoratedSignature
deriving DecidableEq, Repr

/-- The message envelope (`Message`). -/
structure Message where
  ChannelID : String := ""
  MsgNum : Nat := 0
  Version : Int := 0
  ChannelProposeMsg : Option ChannelProposeMsg := none
  ChannelAcceptMsg : Option ChannelAcceptMsg := none
  PaymentProposeMsg : Option PaymentProposeMsg := none
  PaymentAcceptMsg : Option PaymentAcceptMsg := none
  PaymentCompleteMsg : Option PaymentCompleteMsg := none
  CloseMsg : Option CloseMsg := none
  Signature : Option Nat := none
deriving DecidableEq, Repr

/-- `version`, the current Starlight protocol version. -/
def version : Int := 2

/-- Error outcomes a handler or constructor can return.  Protocol errors
(`ErrUnexpectedState`, `ErrChannelExists`, `ErrUnusedSettleWithGuestSig`,
`errNoSeed`) have their own constructors; `wrap` models `errors.Wrap` with
the context string used at the call site; `ext` embeds an opaque error from
an external helper; `nilDeref` marks the nil-pointer dereference of
`*accept.RecipientSettleWithGuestSig` that the Go code performs when the
pointer is nil. -/
inductive Err where
  | unexpectedState (st : State)
  | channelExists
  | unusedSettleWithGuestSig
  | noSeed
  | wrap (ctx : String) (e : Err)
  | ext (code : Nat)
  | nilDeref
deriving DecidableEq, Repr

/-- Modelled from the spec: the channel fields written by the (missing)
channel method `setLatestSettlementTxes`, which "sets the counterparty and
latest settlement txes" (its four stored-transaction fields). -/
structure SettlementUpdate where
  CurG : Nat
  CurH : Nat
  CpG : Nat
  CpH : Nat
deriving DecidableEq, Repr

/-- Modelled from the spec: the channel fields written by the (missing)
channel method `setCounterpartySettlementTxes`, which stores the
counterparty's just-proposed settlement pair. -/
structure CounterpartyUpdate where
  CpG : Nat
  CpH : Nat
deriving DecidableEq, Repr

/-- Oracle record for the collaborators that are outside this repository
slice: `keypair.Parse`, `AccountID.SetAddress`, the transaction builders,
`verifySig`, `detachedSig`, message marshalling and raw signing, and the
effects of the channel methods `signRatchetTx`, `setLatestSettlementTxes`
and `setCounterpartySettlementTxes`.  Fallible operations return
`Except Nat` with an opaque error code. -/
structure Env where
  parse : String → Except Nat String
  setAddress : String → Except Nat String
  buildRatchetTx : Channel → Int → String → Int → Except Nat Nat
  buildSettleOnlyWithHostTx : Channel → Int → Except Nat Nat
  buildSettleWithHostTx : Channel → Int → Except Nat Nat
  buildSettleWithGuestTx : Channel → Int → Except Nat Nat
  buildCooperativeCloseTx : Channel → Except Nat Nat
  verifySig : Nat → String → DecoratedSignature → Except Nat Unit
  signRatchetTx : Channel → Nat → DecoratedSignature → Except Nat Nat
  setLatestSettlementTxes : Channel → Option Nat → Option Nat →
    Option DecoratedSignature → DecoratedSignature → Except Nat SettlementUpdate
  setCounterpartySettlementTxes : Channel → Option Nat → Option Nat →
    DecoratedSignature → DecoratedSignature → CounterpartyUpdate
  detachedSig : Nat → Option Nat → String → Nat → Except Nat DecoratedSignature
  marshal : Message → Except Nat Nat
  sign : Nat → Nat → Except Nat Nat

/-- The updater (`Updater`): the owned channel plus the driver context the
handlers read (`LedgerTime`, `Passphrase`, `Seed`, wallet `H.Seqnum`). -/
structure Updater where
  C : Channel
  LedgerTime : Int := 0
  Passphrase : String := ""
  Seed : Option Nat := none
  HSeqnum : Int := 0

/-- A handler outcome: the returned error (if any), the channel record
after the call (Go handlers mutate `u.C` in place), and the wallet account
sequence number after the call. -/
structure HRes where
  err : Option Err
  C : Channel
  HSeqnum : Int
deriving Repr

/-- Modelled from the spec: `transitionTo` sets the FSM state to the target
state (side effects go to the output sink, which is out of scope here). -/
def transitionTo (c : Channel) (s : State) : Channel := { c with State := s }

/-- The counterparty verifying address chosen by the role switches of the
handlers: a Guest verifies against the escrow account's key, a Host against
the guest account's key. -/
def verifyAddr (c : Channel) : String :=
  match c.Role with
  | Role.Guest => c.EscrowAcct
  | Role.Host  => c.GuestAcct

/-- The balance mutation of `handlePaymentAcceptMsg`'s role switch
(msg.go lines 158-171): apply the pending outbound payment. -/
def acceptApplyPending (c : Channel) : Channel :=
  match c.Role with
  | Role.Guest => { c with GuestAmount := c.GuestAmount - c.PendingAmountSent,
                           HostAmount := c.HostAmount + c.PendingAmountSent }
  | Role.Host  => { c with HostAmount := c.HostAmount - c.PendingAmountSent,
                           GuestAmount := c.GuestAmount + c.PendingAmountSent }

/-- The hypothetical channel `ch2` of `handlePaymentProposeMsg`
(msg.go lines 353-366): the current channel with the proposed payment
applied; the round number is bumped when the state is `Open` or
`AwaitingPaymentMerge`. -/
def proposeCh2 (c : Channel) (amt : Int) : Channel :=
  let chA := if c.State = State.Open ∨ c.State = State.AwaitingPaymentMerge then
      { c with RoundNumber := c.RoundNumber + 1 } else c
  match c.Role with
  | Role.Guest => { chA with GuestAmount := chA.GuestAmount + amt,
                             HostAmount := chA.HostAmount - amt }
  | Role.Host  => { chA with HostAmount := chA.HostAmount + amt,
                             GuestAmount := chA.GuestAmount - amt }

/-- `handlePaymentCompleteMsg` (msg.go lines 97-146). -/
def handlePaymentCompleteMsg (env : Env) (u : Updater) (m : PaymentCompleteMsg) : HRes :=
  let c := u.C
  if c.State ≠ State.PaymentAccepted then
    ⟨some (Err.unexpectedState c.State), c, u.HSeqnum⟩
  else
    let delta := c.PendingAmountReceived - c.PendingAmountSent
    let c1 : Channel :=
      match c.Role with
      | Role.Guest => { c with GuestAmount := c.GuestAmount + delta,
                               HostAmount := c.HostAmount - delta }
      | Role.Host  => { c with HostAmount := c.HostAmount + delta,
                               GuestAmount := c.GuestAmount - delta }
    let senderRatchetAccount :=
      match c.Role with
      | Role.Guest => c.HostRatchetAcct
      | Role.Host  => c.GuestRatchetAcct
    let senderRatchetSeqNum :=
      match c.Role with
      | Role.Guest => c.HostRatchetAcctSeqNum
      | Role.Host  => c.GuestRatchetAcctSeqNum
    match env.parse (verifyAddr c) with
    | Except.error e => ⟨some (Err.ext e), c1, u.HSeqnum⟩
    | Except.ok senderKey =>
      match env.buildRatchetTx c1 c1.PendingPaymentTime senderRatchetAccount senderRatchetSeqNum with
      | Except.error e => ⟨some (Err.ext e), c1, u.HSeqnum⟩
      | Except.ok ratchetTx =>
        match env.verifySig ratchetTx senderKey m.SenderRatchetSig with
        | Except.error e => ⟨some (Err.wrap "ratchet tx" (Err.ext e)), c1, u.HSeqnum⟩
        | Except.ok _ =>
          let c2 := { c1 with
            CurrentSettleWithGuestTx := c1.CounterpartyLatestSettleWithGuestTx,
            CurrentSettleWithHostTx := c1.CounterpartyLatestSettleWithHostTx }
          match env.signRatchetTx c2 ratchetTx m.SenderRatchetSig with
          | Except.error e => ⟨some (Err.ext e), c2, u.HSeqnum⟩
          | Except.ok rt =>
            let c3 := { c2 with
              CurrentRatchetTx := rt,
              PaymentTime := c2.PendingPaymentTime,
              PendingAmountReceived := 0,
              PendingAmountSent := 0 }
            ⟨none, transitionTo c3 State.Open, u.HSeqnum⟩

/-- The guest-side settlement block of `handlePaymentAcceptMsg`
(msg.go lines 198-213): absent when the post-payment GuestAmount is zero
(a present signature is then `ErrUnusedSettleWithGuestSig`), otherwise the
settle-with-guest tx is built and the signature verified. -/
def acceptGuestStep (env : Env) (c1 : Channel) (accept : PaymentAcceptMsg)
    (recipientKey : String) : Except Err (Option Nat × Option DecoratedSignature) :=
  if c1.GuestAmount = 0 then
    match accept.RecipientSettleWithGuestSig with
    | some _ => Except.error Err.unusedSettleWithGuestSig
    | none => Except.ok (none, none)
  else
    match env.buildSettleWithGuestTx c1 c1.PendingPaymentTime with
    | Except.error e => Except.error (Err.wrap "building settle with guest tx" (Err.ext e))
    | Except.ok guestTx =>
      match accept.RecipientSettleWithGuestSig with
      | none => Except.error Err.nilDeref
      | some gsig =>
        match env.verifySig guestTx recipientKey gsig with
        | Except.error e => Except.error (Err.wrap "settle with guest tx" (Err.ext e))
        | Except.ok _ => Except.ok (some guestTx, some gsig)

/-- `handlePaymentAcceptMsg` (msg.go lines 148-229).  Note the source has
no FSM-state guard: the role switch applies the pending balance shift
unconditionally. -/
def handlePaymentAcceptMsg (env : Env) (u : Updater) (accept : PaymentAcceptMsg) : HRes :=
  let c := u.C
  let c1 := acceptApplyPending c
  let recipientAccount :=
    match c.Role with
    | Role.Guest => c.HostRatchetAcct
    | Role.Host  => c.GuestRatchetAcct
  let recipientSeqNum :=
    match c.Role with
    | Role.Guest => c.HostRatchetAcctSeqNum
    | Role.Host  => c.GuestRatchetAcctSeqNum
  match env.parse (verifyAddr c) with
  | Except.error e => ⟨some (Err.ext e), c1, u.HSeqnum⟩
  | Except.ok recipientKey =>
  match env.buildRatchetTx c1 c1.PendingPaymentTime recipientAccount recipientSeqNum with
  | Except.error e => ⟨some (Err.ext e), c1, u.HSeqnum⟩
  | Except.ok ratchetTx =>
  match env.verifySig ratchetTx recipientKey accept.RecipientRatchetSig with
  | Except.error e => ⟨some (Err.wrap "ratchet tx" (Err.ext e)), c1, u.HSeqnum⟩
  | Except.ok _ =>
  let hostTxRes :=
    if c1.GuestAmount = 0 then env.buildSettleOnlyWithHostTx c1 c1.PendingPaymentTime
    else env.buildSettleWithHostTx c1 c1.PendingPaymentTime
  match hostTxRes with
  | Except.error e => ⟨some (Err.ext e), c1, u.HSeqnum⟩
  | Except.ok hostTx =>
  match env.verifySig hostTx recipientKey accept.RecipientSettleWithHostSig with
  | Except.error e => ⟨some (Err.wrap "settle with host tx" (Err.ext e)), c1, u.HSeqnum⟩
  | Except.ok _ =>
  match acceptGuestStep env c1 accept recipientKey with
  | Except.error e => ⟨some e, c1, u.HSeqnum⟩
  | Except.ok (guestTx, recipientSettleWithGuestSig) =>
  match env.setLatestSettlementTxes c1 guestTx (some hostTx) recipientSettleWithGuestSig
          accept.RecipientSettleWithHostSig with
  | Except.error e => ⟨some (Err.ext e), c1, u.HSeqnum⟩
  | Except.ok su =>
  let c2 := { c1 with
    CurrentSettleWithGuestTx := su.CurG,
    CurrentSettleWithHostTx := su.CurH,
    CounterpartyLatestSettleWithGuestTx := su.CpG,
    CounterpartyLatestSettleWithHostTx := su.CpH }
  match env.signRatchetTx c2 ratchetTx accept.RecipientRatchetSig with
  | Except.error e => ⟨some (Err.ext e), c2, u.HSeqnum⟩
  | Except.ok rt =>
  let c3 := { c2 with
    CurrentRatchetTx := rt,
    PaymentTime := c2.PendingPaymentTime,
    PendingAmountReceived := 0,
    PendingAmountSent := 0 }
  ⟨none, transitionTo c3 State.Open, u.HSeqnum⟩

/-- `key.PrimaryAccountIndex`; modelled from the spec (section 6.4): the
wallet's primary account key index. -/
def PrimaryAccountIndex : Nat := 0

/-- `handleChannelProposeMsg` (msg.go lines 231-272). -/
def handleChannelProposeMsg (env : Env) (u : Updater) (m : Message)
    (propose : ChannelProposeMsg) : HRes :=
  let c := u.C
  if c.State ≠ State.Start then
    ⟨some Err.channelExists, c, u.HSeqnum⟩
  else if propose.GuestAcct ≠ c.GuestAcct then
    ⟨none, c, u.HSeqnum⟩  -- dropped message
  else
    match env.setAddress m.ChannelID with
    | Except.error e => ⟨some (Err.ext e), c, u.HSeqnum⟩
    | Except.ok escrowAcct =>
      let fresh : Channel := { zeroChannel with
        ID := m.ChannelID,
        Role := Role.Guest,
        HostAmount := propose.HostAmount,
        MaxRoundDuration := propose.MaxRoundDuration,
        FinalityDelay := propose.FinalityDelay,
        FundingTime := propose.FundingTime,
        PaymentTime := propose.FundingTime,
        HostAcct := propose.HostAcct,
        GuestAcct := c.GuestAcct,
        EscrowAcct := escrowAcct,
        HostRatchetAcct := propose.HostRatchetAcct,
        GuestRatchetAcct := propose.GuestRatchetAcct,
        RoundNumber := 1,
        BaseSequenceNumber := c.BaseSequenceNumber,
        HostRatchetAcctSeqNum := c.HostRatchetAcctSeqNum,
        GuestRatchetAcctSeqNum := c.GuestRatchetAcctSeqNum,
        KeyIndex := PrimaryAccountIndex,
        Passphrase := u.Passphrase,
        CounterpartyAddress := c.CounterpartyAddress,
        ChannelFeerate := propose.Feerate }
      ⟨none, transitionTo fresh State.AwaitingFunding, u.HSeqnum⟩

/-- `handleChannelAcceptMsg` (msg.go lines 274-316).  The source ignores
the errors of `signRatchetTx` and `setLatestSettlementTxes` on this path;
on an (ignored) oracle error the corresponding fields stay unchanged. -/
def handleChannelAcceptMsg (env : Env) (u : Updater) (accept : ChannelAcceptMsg) : HRes :=
  let c := u.C
  if c.State ≠ State.ChannelProposed then
    ⟨some (Err.unexpectedState c.State), c, u.HSeqnum⟩
  else if c.Role ≠ Role.Host then
    ⟨none, c, u.HSeqnum⟩  -- dropped message
  else if u.LedgerTime > c.FundingTime + c.MaxRoundDuration then
    ⟨none, c, u.HSeqnum⟩  -- dropped message
  else
    let seq := u.HSeqnum + 1
    match env.parse c.GuestAcct with
    | Except.error e => ⟨some (Err.ext e), c, seq⟩
    | Except.ok guestKey =>
    match env.buildRatchetTx c c.FundingTime c.HostRatchetAcct c.HostRatchetAcctSeqNum with
    | Except.error e => ⟨some (Err.ext e), c, seq⟩
    | Except.ok ratchetTx =>
    match env.verifySig ratchetTx guestKey accept.GuestRatchetRound1Sig with
    | Except.error e =>
      ⟨some (Err.wrap "invalid signature on round 1 ratchet tx" (Err.ext e)), c, seq⟩
    | Except.ok _ =>
    let c1 :=
      match env.signRatchetTx c ratchetTx accept.GuestRatchetRound1Sig with
      | Except.error _ => c
      | Except.ok rt => { c with CurrentRatchetTx := rt }
    match env.buildSettleOnlyWithHostTx c1 c1.FundingTime with
    | Except.error e => ⟨some (Err.ext e), c1, seq⟩
    | Except.ok settleOnlyWithHostTx =>
    match env.verifySig settleOnlyWithHostTx guestKey accept.GuestSettleOnlyWithHostSig with
    | Except.error e =>
      ⟨some (Err.wrap "invalid signature on round 1 settlement tx" (Err.ext e)), c1, seq⟩
    | Except.ok _ =>
    let c2 :=
      match env.setLatestSettlementTxes c1 none (some settleOnlyWithHostTx) none
              accept.GuestSettleOnlyWithHostSig with
      | Except.error _ => c1
      | Except.ok su => { c1 with
          CurrentSettleWithGuestTx := su.CurG,
          CurrentSettleWithHostTx := su.CurH,
          CounterpartyLatestSettleWithGuestTx := su.CpG,
          CounterpartyLatestSettleWithHostTx := su.CpH }
    ⟨none, transitionTo c2 State.AwaitingFunding, seq⟩

/-- The settlement build-and-verify block of `handlePaymentProposeMsg`
(msg.go lines 368-393), computed against the hypothetical channel `ch2`:
returns the optional settle-with-guest tx and the settle-with-host tx. -/
def proposeSettleStep (env : Env) (ch2 : Channel) (payment : PaymentProposeMsg)
    (verifyKey : String) : Except Err (Option Nat × Nat) :=
  if ch2.GuestAmount = 0 then
    if payment.SenderSettleWithGuestSig.Signature ≠ none then
      Except.error Err.unusedSettleWithGuestSig
    else
      match env.buildSettleOnlyWithHostTx ch2 payment.PaymentTime with
      | Except.error e => Except.error (Err.ext e)
      | Except.ok hostTx => Except.ok (none, hostTx)
  else
    match env.buildSettleWithGuestTx ch2 payment.PaymentTime with
    | Except.error e => Except.error (Err.ext e)
    | Except.ok guestTx =>
      match env.verifySig guestTx verifyKey payment.SenderSettleWithGuestSig with
      | Except.error e => Except.error (Err.wrap "settle with guest tx" (Err.ext e))
      | Except.ok _ =>
        match env.buildSettleWithHostTx ch2 payment.PaymentTime with
        | Except.error e => Except.error (Err.ext e)
        | Except.ok hostTx => Except.ok (some guestTx, hostTx)

/-- The `Open`/`AwaitingPaymentMerge` branch of `handlePaymentProposeMsg`
(msg.go lines 398-428): staleness and time-window checks, merge-amount
validation, then acceptance of the proposed payment. -/
def proposeOpenBranch (env : Env) (u : Updater) (payment : PaymentProposeMsg)
    (settleWithGuestTx : Option Nat) (settleWithHostTx : Nat) : HRes :=
  let c := u.C
  if c.RoundNumber ≥ payment.RoundNumber then
    ⟨none, c, u.HSeqnum⟩  -- dropped message: stale payment round
  else if u.LedgerTime > payment.PaymentTime + c.MaxRoundDuration then
    ⟨none, c, u.HSeqnum⟩  -- dropped message: out-of-window payment time
  else if u.LedgerTime < payment.PaymentTime - c.MaxRoundDuration then
    ⟨none, c, u.HSeqnum⟩  -- dropped message: out-of-window payment time
  else if payment.PaymentTime < c.PaymentTime then
    ⟨none, c, u.HSeqnum⟩  -- dropped message: payment time before last completed
  else
    let mergeStep : Option Channel :=
      if c.State = State.AwaitingPaymentMerge then
        if payment.PaymentAmount ≠ c.PendingAmountReceived - c.PendingAmountSent then
          none  -- dropped message: invalid merge payment amount
        else some c
      else some { c with PendingAmountReceived := payment.PaymentAmount }
    match mergeStep with
    | none => ⟨none, c, u.HSeqnum⟩
    | some cM =>
      let cp := env.setCounterpartySettlementTxes cM settleWithGuestTx
          (some settleWithHostTx) payment.SenderSettleWithGuestSig
          payment.SenderSettleWithHostSig
      let cN := { cM with
        CounterpartyLatestSettleWithGuestTx := cp.CpG,
        CounterpartyLatestSettleWithHostTx := cp.CpH,
        PendingPaymentTime := payment.PaymentTime,
        RoundNumber := cM.RoundNumber + 1 }
      ⟨none, transitionTo cN State.PaymentAccepted, u.HSeqnum⟩

/-- The `PaymentProposed` collision branch of `handlePaymentProposeMsg`
(msg.go lines 430-443). -/
def proposeCollisionBranch (u : Updater) (payment : PaymentProposeMsg) : HRes :=
  let c := u.C
  if c.RoundNumber ≠ payment.RoundNumber then
    ⟨none, c, u.HSeqnum⟩  -- dropped message: wrong payment round
  else if c.PendingAmountSent > payment.PaymentAmount ∨
      (c.PendingAmountSent = payment.PaymentAmount ∧ c.Role = Role.Host) then
    -- create merged payment
    let cW := { c with
      RoundNumber := c.RoundNumber + 1,
      PendingAmountSent := c.PendingAmountSent - payment.PaymentAmount }
    ⟨none, transitionTo cW State.PaymentProposed, u.HSeqnum⟩
  else
    -- receive merge payment
    let cL := { c with PendingAmountReceived := payment.PaymentAmount }
    ⟨none, transitionTo cL State.AwaitingPaymentMerge, u.HSeqnum⟩

/-- `handlePaymentProposeMsg` (msg.go lines 318-446). -/
def handlePaymentProposeMsg (env : Env) (u : Updater) (payment : PaymentProposeMsg) : HRes :=
  let c := u.C
  if c.State ≠ State.Open ∧ c.State ≠ State.PaymentProposed ∧
      c.State ≠ State.AwaitingPaymentMerge then
    ⟨some (Err.unexpectedState c.State), c, u.HSeqnum⟩
  else if payment.PaymentAmount < 0 then
    ⟨none, c, u.HSeqnum⟩  -- dropped message: invalid payment amount
  else
    -- role switch: counterparty balance bound, then verifying key
    let dropBalance : Bool :=
      match c.Role with
      | Role.Guest => decide (payment.PaymentAmount > c.HostAmount)
      | Role.Host  => decide (payment.PaymentAmount > c.GuestAmount)
    if dropBalance then ⟨none, c, u.HSeqnum⟩  -- dropped message
    else
    match env.parse (verifyAddr c) with
    | Except.error e => ⟨some (Err.ext e), c, u.HSeqnum⟩
    | Except.ok verifyKey =>
    -- hypothetical channel ch2 with the proposed payment applied
    match proposeSettleStep env (proposeCh2 c payment.PaymentAmount) payment verifyKey with
    | Except.error e => ⟨some e, c, u.HSeqnum⟩
    | Except.ok (settleWithGuestTx, settleWithHostTx) =>
    match env.verifySig settleWithHostTx verifyKey payment.SenderSettleWithHostSig with
    | Except.error e => ⟨some (Err.wrap "settle with host tx" (Err.ext e)), c, u.HSeqnum⟩
    | Except.ok _ =>
    if c.State = State.Open ∨ c.State = State.AwaitingPaymentMerge then
      proposeOpenBranch env u payment settleWithGuestTx settleWithHostTx
    else
      proposeCollisionBranch u payment

/-- `handleCloseMsg` (msg.go lines 448-482). -/
def handleCloseMsg (env : Env) (u : Updater) (m : CloseMsg) : HRes :=
  let c := u.C
  if c.State ≠ State.Open ∧ c.State ≠ State.PaymentProposed ∧
      c.State ≠ State.AwaitingClose then
    ⟨some (Err.unexpectedState c.State), c, u.HSeqnum⟩
  else
    match env.parse (verifyAddr c) with
    | Except.error e => ⟨some (Err.ext e), c, u.HSeqnum⟩
    | Except.ok verifyKey =>
    match env.buildCooperativeCloseTx c with
    | Except.error e => ⟨some (Err.ext e), c, u.HSeqnum⟩
    | Except.ok coopCloseTx =>
    match env.verifySig coopCloseTx verifyKey m.CooperativeCloseSig with
    | Except.error e => ⟨some (Err.wrap "coop close tx" (Err.ext e)), c, u.HSeqnum⟩
    | Except.ok _ =>
    let c1 := { c with CounterpartyCoopCloseSig := m.CooperativeCloseSig }
    ⟨none, transitionTo c1 State.AwaitingClose, u.HSeqnum⟩

/-- `Message.signMsg` (msg.go lines 492-503): fail with `errNoSeed` when
the seed is absent, otherwise sign the canonical bytes of the message with
the `Signature` field cleared and store the signature. -/
def signMsg (env : Env) (seed : Option Nat) (m : Message) : Except Err Message :=
  match seed with
  | none => Except.error Err.noSeed
  | some s =>
    match env.marshal { m with Signature := none } with
    | Except.error e => Except.error (Err.ext e)
    | Except.ok bytes =>
      match env.sign s bytes with
      | Except.error e => Except.error (Err.ext e)
      | Except.ok sig => Except.ok { m with Signature := some sig }

/-- `createPaymentCompleteMsg` (part_000 lines 81-110). -/
def createPaymentCompleteMsg (env : Env) (seed : Option Nat) (ch : Channel) :
    Except Err Message :=
  let ratchetAccount :=
    match ch.Role with
    | Role.Guest => ch.GuestRatchetAcct
    | Role.Host  => ch.HostRatchetAcct
  let ratchetSeqNum :=
    match ch.Role with
    | Role.Guest => ch.GuestRatchetAcctSeqNum
    | Role.Host  => ch.HostRatchetAcctSeqNum
  match env.buildRatchetTx ch ch.PendingPaymentTime ratchetAccount ratchetSeqNum with
  | Except.error e => Except.error (Err.ext e)
  | Except.ok senderRatchetTx =>
  match env.detachedSig senderRatchetTx seed ch.Passphrase ch.KeyIndex with
  | Except.error e => Except.error (Err.ext e)
  | Except.ok senderRatchetSig =>
  signMsg env seed {
    ChannelID := ch.ID,
    PaymentCompleteMsg := some ⟨ch.RoundNumber, senderRatchetSig⟩,
    Version := version,
    MsgNum := ch.LastMsgIndex + 1 }

/-- `createChannelProposeMsg` (part_000 lines 155-174). -/
def createChannelProposeMsg (env : Env) (seed : Option Nat) (ch : Channel) :
    Except Err Message :=
  signMsg env seed {
    ChannelID := ch.ID,
    ChannelProposeMsg := some {
      HostAcct := ch.HostAcct,
      GuestAcct := ch.GuestAcct,
      HostRatchetAcct := ch.HostRatchetAcct,
      GuestRatchetAcct := ch.GuestRatchetAcct,
      MaxRoundDuration := ch.MaxRoundDuration,
      FinalityDelay := ch.FinalityDelay,
      HostAmount := ch.HostAmount,
      FundingTime := ch.FundingTime,
      BaseSequenceNumber := ch.BaseSequenceNumber,
      Feerate := ch.ChannelFeerate },
    Version := version,
    MsgNum := ch.LastMsgIndex + 1 }

/-- `createPaymentProposeMsg` (part_000 lines 185-238). -/
def createPaymentProposeMsg (env : Env) (seed : Option Nat) (ch : Channel) :
    Except Err Message :=
  let ch2 : Channel :=
    match ch.Role with
    | Role.Guest => { ch with GuestAmount := ch.GuestAmount - ch.PendingAmountSent,
                              HostAmount := ch.HostAmount + ch.PendingAmountSent }
    | Role.Host  => { ch with HostAmount := ch.HostAmount - ch.PendingAmountSent,
                              GuestAmount := ch.GuestAmount + ch.PendingAmountSent }
  let sigStep : Except Err (DecoratedSignature × DecoratedSignature) :=
    if ch2.GuestAmount = 0 then
      match env.buildSettleOnlyWithHostTx ch2 ch2.PendingPaymentTime with
      | Except.error e => Except.error (Err.ext e)
      | Except.ok settleOnlyWithHostTx =>
        match env.detachedSig settleOnlyWithHostTx seed ch2.Passphrase ch2.KeyIndex with
        | Except.error e => Except.error (Err.ext e)
        | Except.ok hostSig => Except.ok (zeroSig, hostSig)
    else
      match env.buildSettleWithGuestTx ch2 ch2.PendingPaymentTime with
      | Except.error e => Except.error (Err.ext e)
      | Except.ok settleWithGuestTx =>
        match env.detachedSig settleWithGuestTx seed ch2.Passphrase ch2.KeyIndex with
        | Except.error e => Except.error (Err.ext e)
        | Except.ok guestSig =>
          match env.buildSettleWithHostTx ch2 ch2.PendingPaymentTime with
          | Except.error e => Except.error (Err.ext e)
          | Except.ok settleWithHostTx =>
            match env.detachedSig settleWithHostTx seed ch2.Passphrase ch2.KeyIndex with
            | Except.error e => Except.error (Err.ext e)
            | Except.ok hostSig => Except.ok (guestSig, hostSig)
  match sigStep with
  | Except.error e => Except.error e
  | Except.ok (settleWithGuestSig, settleWithHostSig) =>
  signMsg env seed {
    ChannelID := ch2.ID,
    PaymentProposeMsg := some {
      RoundNumber := ch2.RoundNumber,
      PaymentTime := ch2.PendingPaymentTime,
      PaymentAmount := ch2.PendingAmountSent,
      SenderSettleWithGuestSig := settleWithGuestSig,
      SenderSettleWithHostSig := settleWithHostSig },
    Version := version,
    MsgNum := ch.LastMsgIndex + 1 }

/-- `createPaymentAcceptMsg` (part_000 lines 249-303). -/
def createPaymentAcceptMsg (env : Env) (seed : Option Nat) (ch : Channel) :
    Except Err Message :=
  let ratchetAccount :=
    match ch.Role with
    | Role.Guest => ch.GuestRatchetAcct
    | Role.Host  => ch.HostRatchetAcct
  let ratchetSeqNum :=
    match ch.Role with
    | Role.Guest => ch.GuestRatchetAcctSeqNum
    | Role.Host  => ch.HostRatchetAcctSeqNum
  match env.buildRatchetTx ch ch.PendingPaymentTime ratchetAccount ratchetSeqNum with
  | Except.error e => Except.error (Err.ext e)
  | Except.ok ratchetTx =>
  match env.detachedSig ratchetTx seed ch.Passphrase ch.KeyIndex with
  | Except.error e => Except.error (Err.ext e)
  | Except.ok ratchetTxSig =>
  let guestAmount : Int :=
    match ch.Role with
    | Role.Guest => ch.GuestAmount + ch.PendingAmountReceived
    | Role.Host  => ch.GuestAmount - ch.PendingAmountReceived
  let guestSigStep : Except Err (Option DecoratedSignature) :=
    if guestAmount ≠ 0 then
      match env.detachedSig ch.CounterpartyLatestSettleWithGuestTx seed ch.Passphrase ch.KeyIndex with
      | Except.error e => Except.error (Err.ext e)
      | Except.ok s => Except.ok (some s)
    else Except.ok none
  match guestSigStep with
  | Except.error e => Except.error e
  | Except.ok settleWithGuestSig =>
  match env.detachedSig ch.CounterpartyLatestSettleWithHostTx seed ch.Passphrase ch.KeyIndex with
  | Except.error e => Except.error (Err.ext e)
  | Except.ok settleWithHostSig =>
  signMsg env seed {
    ChannelID := ch.ID,
    PaymentAcceptMsg := some {
      RoundNumber := ch.RoundNumber,
      RecipientRatchetSig := ratchetTxSig,
      RecipientSettleWithGuestSig := settleWithGuestSig,
      RecipientSettleWithHostSig := settleWithHostSig },
    Version := version,
    MsgNum := ch.LastMsgIndex + 1 }

/-- `createChannelAcceptMsg` (part_000 lines 314-341). -/
def createChannelAcceptMsg (env : Env) (seed : Option Nat) (ch : Channel) :
    Except Err Message :=
  match env.buildSettleOnlyWithHostTx ch ch.FundingTime with
  | Except.error e => Except.error (Err.ext e)
  | Except.ok settleOnlyWithHostTx =>
  match env.detachedSig settleOnlyWithHostTx seed ch.Passphrase ch.KeyIndex with
  | Except.error e => Except.error (Err.ext e)
  | Except.ok settleOnlyWithHostSig =>
  match env.buildRatchetTx ch ch.FundingTime ch.HostRatchetAcct ch.HostRatchetAcctSeqNum with
  | Except.error e => Except.error (Err.ext e)
  | Except.ok ratchetTx =>
  match env.detachedSig ratchetTx seed ch.Passphrase ch.KeyIndex with
  | Except.error e => Except.error (Err.ext e)
  | Except.ok ratchetTxSig =>
  signMsg env seed {
    ChannelID := ch.ID,
    ChannelAcceptMsg := some ⟨ratchetTxSig, settleOnlyWithHostSig⟩,
    Version := version,
    MsgNum := ch.LastMsgIndex + 1 }

/-- `createCloseMsg` (part_000 lines 352-370). -/
def createCloseMsg (env : Env) (seed : Option Nat) (ch : Channel) :
    Except Err Message :=
  match env.buildCooperativeCloseTx ch with
  | Except.error e => Except.error (Err.ext e)
  | Except.ok coopCloseTx =>
  match env.detachedSig coopCloseTx seed ch.Passphrase ch.KeyIndex with
  | Except.error e => Except.error (Err.ext e)
  | Except.ok coopCloseSig =>
  signMsg env seed {
    ChannelID := ch.ID,
    CloseMsg := some ⟨coopCloseSig⟩,
    Version := version,
    MsgNum := ch.LastMsgIndex + 1 }

/-! Concrete fixtures used by witnesses and counterexamples. -/

/-- An oracle environment on which every external operation succeeds,
returning distinguishable concrete values. -/
def envOK : Env where
  parse := fun a => Except.ok a
  setAddress := fun s => Except.ok s
  buildRatchetTx := fun _ _ _ _ => Except.ok 10
  buildSettleOnlyWithHostTx := fun _ _ => Except.ok 11
  buildSettleWithHostTx := fun _ _ => Except.ok 12
  buildSettleWithGuestTx := fun _ _ => Except.ok 13
  buildCooperativeCloseTx := fun _ => Except.ok 14
  verifySig := fun _ _ _ => Except.ok ()
  signRatchetTx := fun _ _ _ => Except.ok 21
  setLatestSettlementTxes := fun _ _ _ _ _ => Except.ok ⟨31, 32, 33, 34⟩
  setCounterpartySettlementTxes := fun _ _ _ _ _ => ⟨41, 42⟩
  detachedSig := fun _ _ _ _ => Except.ok ⟨some 5⟩
  marshal := fun _ => Except.ok 6
  sign := fun s b => Except.ok (s + b)

/-- Like `envOK` but every signature verification fails with code 7. -/
def envFailVerify : Env := { envOK with verifySig := fun _ _ _ => Except.error 7 }

/-- Like `envOK` but verification fails exactly on the settle-with-guest
transaction (which `envOK`'s builder returns as 13). -/
def envFailGuestVerify : Env :=
  { envOK with verifySig := fun tx _ _ => if tx = 13 then Except.error 7 else Except.ok () }

/-- A concrete funded channel record used as the base of test inputs. -/
def chBase : Channel := { zeroChannel with
  ID := "esc",
  Role := Role.Guest,
  State := State.Open,
  HostAmount := 900,
  GuestAmount := 100,
  MaxRoundDuration := 60,
  PaymentTime := 10,
  PendingPaymentTime := 40,
  HostAcct := "host",
  GuestAcct := "guest",
  EscrowAcct := "esc",
  HostRatchetAcct := "hr",
  GuestRatchetAcct := "gr",
  HostRatchetAcctSeqNum := 100,
  GuestRatchetAcctSeqNum := 200,
  RoundNumber := 5,
  CounterpartyLatestSettleWithGuestTx := 3,
  CounterpartyLatestSettleWithHostTx := 4,
  LastMsgIndex := 17 }

/-- A close message and updater on an open channel. -/
def uClose : Updater := { C := chBase, LedgerTime := 45, Seed := some 9 }

/-- A concrete inbound cooperative-close message. -/
def mClose : CloseMsg := ⟨⟨some 8⟩⟩

/-- C10: a successful `handleClose` modifies only the stored counterparty
cooperative-close signature and the FSM state (set to `AwaitingClose`);
every other channel field is unchanged. -/
theorem C10_handleClose_frame (env : Env) (u : Updater) (m : CloseMsg)
    (h : (handleCloseMsg env u m).err = none) :
    (handleCloseMsg env u m).C =
      { u.C with CounterpartyCoopCloseSig := m.CooperativeCloseSig,
                 State := State.AwaitingClose } := by
  revert h
  simp only [handleCloseMsg]
  split
  · intro h; simp at h
  · split
    · intro h; simp at h
    · split
      · intro h; simp at h
      · split
        · intro h; simp at h
        · intro _; rfl

/-- Witness for C10 at a concrete open channel and message. -/
theorem C10_witness :
    (handleCloseMsg envOK uClose mClose).C =
      { uClose.C with CounterpartyCoopCloseSig := mClose.CooperativeCloseSig,
                      State := State.AwaitingClose } :=
  C10_handleClose_frame envOK uClose mClose (by decide)

/-- The pending-payment application preserves the balance sum. -/
theorem acceptApplyPending_sum (c : Channel) :
    (acceptApplyPending c).HostAmount + (acceptApplyPending c).GuestAmount =
      c.HostAmount + c.GuestAmount := by
  unfold acceptApplyPending
  cases c.Role <;> simp

/-- A payment-accept input: our proposal of 30 is pending. -/
def uAcc : Updater :=
  { C := { chBase with State := State.PaymentProposed, PendingAmountSent := 30 },
    LedgerTime := 45, Seed := some 9 }

/-- A concrete inbound payment-accept message. -/
def mAcc : PaymentAcceptMsg := ⟨5, ⟨some 8⟩, some ⟨some 8⟩, ⟨some 8⟩⟩

/-- A payment-complete input: their payment of 10 was accepted. -/
def uCmp : Updater :=
  { C := { chBase with State := State.PaymentAccepted, PendingAmountReceived := 10 },
    LedgerTime := 45, Seed := some 9 }

/-- A concrete inbound payment-complete message. -/
def mCmp : PaymentCompleteMsg := ⟨5, ⟨some 8⟩⟩

/-- C5: a successful `handlePaymentAccept` or `handlePaymentComplete`
leaves the sum `HostAmount + GuestAmount` unchanged. -/
theorem C5_balance_conservation (env : Env) (u : Updater)
    (a : PaymentAcceptMsg) (m : PaymentCompleteMsg) :
    ((handlePaymentAcceptMsg env u a).err = none →
      (handlePaymentAcceptMsg env u a).C.HostAmount +
        (handlePaymentAcceptMsg env u a).C.GuestAmount =
        u.C.HostAmount + u.C.GuestAmount) ∧
    ((handlePaymentCompleteMsg env u m).err = none →
      (handlePaymentCompleteMsg env u m).C.HostAmount +
        (handlePaymentCompleteMsg env u m).C.GuestAmount =
        u.C.HostAmount + u.C.GuestAmount) := by
  constructor
  · simp only [handlePaymentAcceptMsg]
    repeat' split
    all_goals intro h
    all_goals simp at h ⊢
    all_goals simp [transitionTo, acceptApplyPending_sum]
  · cases hR : u.C.Role <;>
    · simp only [handlePaymentCompleteMsg, hR]
      repeat' split
      all_goals intro h
      all_goals simp [transitionTo] at h ⊢

/-- Witness for C5: both handlers succeed at concrete inputs and conserve
the 1000-unit balance. -/
theorem C5_witness :
    ((handlePaymentAcceptMsg envOK uAcc mAcc).C.HostAmount +
       (handlePaymentAcceptMsg envOK uAcc mAcc).C.GuestAmount =
       uAcc.C.HostAmount + uAcc.C.GuestAmount) ∧
    ((handlePaymentCompleteMsg envOK uCmp mCmp).C.HostAmount +
       (handlePaymentCompleteMsg envOK uCmp mCmp).C.GuestAmount =
       uCmp.C.HostAmount + uCmp.C.GuestAmount) :=
  ⟨(C5_balance_conservation envOK uAcc mAcc mCmp).1 (by decide),
   (C5_balance_conservation envOK uCmp mAcc mCmp).2 (by decide)⟩

/-- The postcondition C6 claims of a successful `handlePaymentComplete`:
signed-delta balance update, promotion of the counterparty settlement txes,
payment-time promotion, cleared pending amounts, and transition to `Open`. -/
def completeSuccessSpec (env : Env) (u : Updater) (m : PaymentCompleteMsg) : Prop :=
  (u.C.Role = Role.Guest →
    (handlePaymentCompleteMsg env u m).C.GuestAmount =
      u.C.GuestAmount + (u.C.PendingAmountReceived - u.C.PendingAmountSent) ∧
    (handlePaymentCompleteMsg env u m).C.HostAmount =
      u.C.HostAmount - (u.C.PendingAmountReceived - u.C.PendingAmountSent)) ∧
  (u.C.Role = Role.Host →
    (handlePaymentCompleteMsg env u m).C.HostAmount =
      u.C.HostAmount + (u.C.PendingAmountReceived - u.C.PendingAmountSent) ∧
    (handlePaymentCompleteMsg env u m).C.GuestAmount =
      u.C.GuestAmount - (u.C.PendingAmountReceived - u.C.PendingAmountSent)) ∧
  (handlePaymentCompleteMsg env u m).C.CurrentSettleWithGuestTx =
    u.C.CounterpartyLatestSettleWithGuestTx ∧
  (handlePaymentCompleteMsg env u m).C.CurrentSettleWithHostTx =
    u.C.CounterpartyLatestSettleWithHostTx ∧
  (handlePaymentCompleteMsg env u m).C.PaymentTime = u.C.PendingPaymentTime ∧
  (handlePaymentCompleteMsg env u m).C.PendingAmountSent = 0 ∧
  (handlePaymentCompleteMsg env u m).C.PendingAmountReceived = 0 ∧
  (handlePaymentCompleteMsg env u m).C.State = State.Open

/-- C6: a successful `handlePaymentComplete` from `PaymentAccepted` applies
the signed pending delta to the balances by role, promotes the stored
counterparty settlement transactions to current, sets `PaymentTime` to
`PendingPaymentTime`, clears both pending amounts, and transitions to
`Open`. -/
theorem C6_handlePaymentComplete_success (env : Env) (u : Updater)
    (m : PaymentCompleteMsg) (_hst : u.C.State = State.PaymentAccepted)
    (h : (handlePaymentCompleteMsg env u m).err = none) :
    completeSuccessSpec env u m := by
  revert h
  unfold completeSuccessSpec
  cases hR : u.C.Role <;>
  · simp only [handlePaymentCompleteMsg, hR]
    repeat' split
    all_goals intro h
    all_goals simp [transitionTo, hR] at h ⊢

/-- Witness for C6 at a concrete accepted payment. -/
theorem C6_witness : completeSuccessSpec envOK uCmp mCmp :=
  C6_handlePaymentComplete_success envOK uCmp mCmp (by decide) (by decide)

/-- The tie-break condition of the `PaymentProposed` collision branch
(msg.go line 435): the handler keeps the proposer role when its own pending
amount is larger, or equal with `Role = Host`. -/
def proposeCollisionWinner (c : Channel) (m : PaymentProposeMsg) : Prop :=
  c.PendingAmountSent > m.PaymentAmount ∨
    (c.PendingAmountSent = m.PaymentAmount ∧ c.Role = Role.Host)

instance (c : Channel) (m : PaymentProposeMsg) :
    Decidable (proposeCollisionWinner c m) := by
  unfold proposeCollisionWinner; infer_instance

/-- In state `PaymentProposed`, with the amount validations satisfied, a
non-error run of `handlePaymentProposeMsg` lands in the collision branch. -/
theorem handlePaymentProposeMsg_collision_dispatch (env : Env) (u : Updater)
    (payment : PaymentProposeMsg)
    (hst : u.C.State = State.PaymentProposed)
    (hamt : 0 ≤ payment.PaymentAmount)
    (hbg : u.C.Role = Role.Guest → payment.PaymentAmount ≤ u.C.HostAmount)
    (hbh : u.C.Role = Role.Host → payment.PaymentAmount ≤ u.C.GuestAmount)
    (h : (handlePaymentProposeMsg env u payment).err = none) :
    handlePaymentProposeMsg env u payment = proposeCollisionBranch u payment := by
  revert h
  cases hR : u.C.Role
  case Host =>
    have hb := hbh hR
    simp only [handlePaymentProposeMsg, hR, hst]
    repeat' split
    all_goals intro h
    · simp at h
    · exfalso; omega
    · exfalso; rename_i hdrop; rw [decide_eq_true_eq] at hdrop; omega
    · simp at h
    · simp at h
    · simp at h
    · rename_i hopen; exact absurd hopen (by decide)
    · rfl
  case Guest =>
    have hb := hbg hR
    simp only [handlePaymentProposeMsg, hR, hst]
    repeat' split
    all_goals intro h
    · simp at h
    · exfalso; omega
    · exfalso; rename_i hdrop; rw [decide_eq_true_eq] at hdrop; omega
    · simp at h
    · simp at h
    · simp at h
    · rename_i hopen; exact absurd hopen (by decide)
    · rfl

/-- The two outcomes of the collision branch at a matching round number. -/
theorem proposeCollisionBranch_cases (u : Updater) (m : PaymentProposeMsg)
    (hrn : u.C.RoundNumber = m.RoundNumber) :
    (proposeCollisionWinner u.C m →
      (proposeCollisionBranch u m).C =
        { u.C with RoundNumber := u.C.RoundNumber + 1,
                   PendingAmountSent := u.C.PendingAmountSent - m.PaymentAmount,
                   State := State.PaymentProposed }) ∧
    (¬ proposeCollisionWinner u.C m →
      (proposeCollisionBranch u m).C =
        { u.C with PendingAmountReceived := m.PaymentAmount,
                   State := State.AwaitingPaymentMerge }) := by
  unfold proposeCollisionWinner
  simp only [proposeCollisionBranch]
  split
  · exfalso; rename_i hne; omega
  · split
    · rename_i hw
      exact ⟨fun _ => rfl, fun hn => absurd hw hn⟩
    · rename_i hn
      exact ⟨fun hw => absurd hw hn, fun _ => rfl⟩

/-- C4: a collision in `PaymentProposed` with a matching round number is
merged: the winning side subtracts the incoming amount from
`PendingAmountSent`, increments the round by exactly 1 and re-enters
`PaymentProposed`; the losing side records `PendingAmountReceived` and
moves to `AwaitingPaymentMerge` with round and `PendingAmountSent`
unchanged. -/
theorem C4_collision_merge (env : Env) (u : Updater) (m : PaymentProposeMsg)
    (hst : u.C.State = State.PaymentProposed)
    (hrn : u.C.RoundNumber = m.RoundNumber)
    (hamt : 0 ≤ m.PaymentAmount)
    (hbg : u.C.Role = Role.Guest → m.PaymentAmount ≤ u.C.HostAmount)
    (hbh : u.C.Role = Role.Host → m.PaymentAmount ≤ u.C.GuestAmount)
    (h : (handlePaymentProposeMsg env u m).err = none) :
    (proposeCollisionWinner u.C m →
      (handlePaymentProposeMsg env u m).C =
        { u.C with RoundNumber := u.C.RoundNumber + 1,
                   PendingAmountSent := u.C.PendingAmountSent - m.PaymentAmount,
                   State := State.PaymentProposed }) ∧
    (¬ proposeCollisionWinner u.C m →
      (handlePaymentProposeMsg env u m).C =
        { u.C with PendingAmountReceived := m.PaymentAmount,
                   State := State.AwaitingPaymentMerge }) := by
  rw [handlePaymentProposeMsg_collision_dispatch env u m hst hamt hbg hbh h]
  exact proposeCollisionBranch_cases u m hrn

/-- Host-side collision input: both sides proposed 50 in round 5. -/
def uColH : Updater :=
  { C := { chBase with
             Role := Role.Host, State := State.PaymentProposed,
             PendingAmountSent := 50 },
    LedgerTime := 45, Seed := some 9 }

/-- Guest-side collision input for the same symmetric collision. -/
def uColG : Updater :=
  { C := { chBase with State := State.PaymentProposed, PendingAmountSent := 50 },
    LedgerTime := 45, Seed := some 9 }

/-- The colliding counter-proposal: 50 units in round 5. -/
def mCol : PaymentProposeMsg := ⟨5, 40, 50, ⟨some 8⟩, ⟨some 8⟩⟩

/-- Witness for C4: at the symmetric 50/50 collision the Host side merges
and re-proposes, the Guest side awaits the merge. -/
theorem C4_witness :
    (handlePaymentProposeMsg envOK uColH mCol).C =
      { uColH.C with RoundNumber := uColH.C.RoundNumber + 1,
                     PendingAmountSent := uColH.C.PendingAmountSent - mCol.PaymentAmount,
                     State := State.PaymentProposed } ∧
    (handlePaymentProposeMsg envOK uColG mCol).C =
      { uColG.C with PendingAmountReceived := mCol.PaymentAmount,
                     State := State.AwaitingPaymentMerge } :=
  ⟨(C4_collision_merge envOK uColH mCol (by decide) (by decide) (by decide)
      (by decide) (by decide) (by decide)).1 (by decide),
   (C4_collision_merge envOK uColG mCol (by decide) (by decide) (by decide)
      (by decide) (by decide) (by decide)).2 (by decide)⟩

/-- A stale payment proposal is dropped by `proposeOpenBranch` before any
other check. -/
theorem proposeOpenBranch_stale (env : Env) (u : Updater) (m : PaymentProposeMsg)
    (g : Option Nat) (t : Nat) (hstale : m.RoundNumber ≤ u.C.RoundNumber) :
    proposeOpenBranch env u m g t = ⟨none, u.C, u.HSeqnum⟩ := by
  simp only [proposeOpenBranch]
  rw [if_pos (by omega)]

/-- A fresh-round proposal that passes the time-window and merge checks is
accepted by `proposeOpenBranch`: state `PaymentAccepted`, round + 1. -/
theorem proposeOpenBranch_process (env : Env) (u : Updater) (m : PaymentProposeMsg)
    (g : Option Nat) (t : Nat)
    (hstale : u.C.RoundNumber < m.RoundNumber)
    (h1 : u.LedgerTime ≤ m.PaymentTime + u.C.MaxRoundDuration)
    (h2 : m.PaymentTime - u.C.MaxRoundDuration ≤ u.LedgerTime)
    (h3 : u.C.PaymentTime ≤ m.PaymentTime)
    (hmerge : u.C.State = State.AwaitingPaymentMerge →
      m.PaymentAmount = u.C.PendingAmountReceived - u.C.PendingAmountSent) :
    (proposeOpenBranch env u m g t).C.State = State.PaymentAccepted ∧
    (proposeOpenBranch env u m g t).C.RoundNumber = u.C.RoundNumber + 1 := by
  simp only [proposeOpenBranch]
  rw [if_neg (by omega), if_neg (by omega), if_neg (by omega), if_neg (by omega)]
  by_cases hA : u.C.State = State.AwaitingPaymentMerge
  · rw [if_pos hA, if_neg (not_ne_iff.mpr (hmerge hA))]
    exact ⟨rfl, rfl⟩
  · rw [if_neg hA]
    exact ⟨rfl, rfl⟩

/-- In state `Open` or `AwaitingPaymentMerge`, with the amount validations
satisfied, a non-error run of `handlePaymentProposeMsg` is decided by
`proposeOpenBranch` on some settlement-transaction pair. -/
theorem handlePaymentProposeMsg_open_dispatch (env : Env) (u : Updater)
    (payment : PaymentProposeMsg)
    (hst : u.C.State = State.Open ∨ u.C.State = State.AwaitingPaymentMerge)
    (hamt : 0 ≤ payment.PaymentAmount)
    (hbg : u.C.Role = Role.Guest → payment.PaymentAmount ≤ u.C.HostAmount)
    (hbh : u.C.Role = Role.Host → payment.PaymentAmount ≤ u.C.GuestAmount)
    (h : (handlePaymentProposeMsg env u payment).err = none) :
    ∃ g t, handlePaymentProposeMsg env u payment = proposeOpenBranch env u payment g t := by
  revert h
  cases hR : u.C.Role
  case Host =>
    have hb := hbh hR
    simp only [handlePaymentProposeMsg, hR]
    repeat' split
    all_goals intro h
    · simp at h
    · exfalso; omega
    · exfalso; rename_i hdrop; rw [decide_eq_true_eq] at hdrop; omega
    · simp at h
    · simp at h
    · simp at h
    · exact ⟨_, _, rfl⟩
  case Guest =>
    have hb := hbg hR
    simp only [handlePaymentProposeMsg, hR]
    repeat' split
    all_goals intro h
    · simp at h
    · exfalso; omega
    · exfalso; rename_i hdrop; rw [decide_eq_true_eq] at hdrop; omega
    · simp at h
    · simp at h
    · simp at h
    · exact ⟨_, _, rfl⟩

/-- C3 amended: in `Open`/`AwaitingPaymentMerge` the staleness check admits
only strictly larger round numbers: a proposal with `RoundNumber` at most
the channel's is silently dropped (nil error, channel unchanged), while one
with a strictly larger round that also passes the time-window and
merge-amount validations is processed into `PaymentAccepted` with the round
incremented. -/
theorem C3_amended_round_check (env : Env) (u : Updater) (m : PaymentProposeMsg)
    (hst : u.C.State = State.Open ∨ u.C.State = State.AwaitingPaymentMerge) :
    (m.RoundNumber ≤ u.C.RoundNumber →
      (handlePaymentProposeMsg env u m).err = none →
      (handlePaymentProposeMsg env u m).C = u.C) ∧
    (u.C.RoundNumber < m.RoundNumber →
      0 ≤ m.PaymentAmount →
      (u.C.Role = Role.Guest → m.PaymentAmount ≤ u.C.HostAmount) →
      (u.C.Role = Role.Host → m.PaymentAmount ≤ u.C.GuestAmount) →
      u.LedgerTime ≤ m.PaymentTime + u.C.MaxRoundDuration →
      m.PaymentTime - u.C.MaxRoundDuration ≤ u.LedgerTime →
      u.C.PaymentTime ≤ m.PaymentTime →
      (u.C.State = State.AwaitingPaymentMerge →
        m.PaymentAmount = u.C.PendingAmountReceived - u.C.PendingAmountSent) →
      (handlePaymentProposeMsg env u m).err = none →
      (handlePaymentProposeMsg env u m).C.State = State.PaymentAccepted ∧
      (handlePaymentProposeMsg env u m).C.RoundNumber = u.C.RoundNumber + 1) := by
  constructor
  · intro hstale h
    revert h
    cases hR : u.C.Role <;>
    · simp only [handlePaymentProposeMsg, hR]
      repeat' split
      all_goals intro h
      · simp at h
      · rfl
      · rfl
      · simp at h
      · simp at h
      · simp at h
      · rw [proposeOpenBranch_stale env u m _ _ hstale]
  · intro hfresh hamt hbg hbh h1 h2 h3 hmerge h
    obtain ⟨g, t, hd⟩ := handlePaymentProposeMsg_open_dispatch env u m hst hamt hbg hbh h
    rw [hd]
    exact proposeOpenBranch_process env u m g t hfresh h1 h2 h3 hmerge

/-- An open-state updater for payment proposals (round 5). -/
def u3 : Updater := { C := chBase, LedgerTime := 45, Seed := some 9 }

/-- An equal-round proposal: round 5, the channel's current round. -/
def m3 : PaymentProposeMsg := ⟨5, 40, 10, ⟨some 8⟩, ⟨some 8⟩⟩

/-- The same proposal at round 6. -/
def m3b : PaymentProposeMsg := ⟨6, 40, 10, ⟨some 8⟩, ⟨some 8⟩⟩

/-- Counterexample to C3 as stated: in state `Open` a proposal whose
`RoundNumber` equals the channel's (so `RoundNumber ≥ u.RoundNumber` holds)
passes every other validation yet is silently dropped, not processed —
while the identical proposal with the next round number is accepted. -/
theorem C3_counterexample :
    u3.C.State = State.Open ∧
    m3.RoundNumber ≥ u3.C.RoundNumber ∧
    (handlePaymentProposeMsg envOK u3 m3).err = none ∧
    (handlePaymentProposeMsg envOK u3 m3).C = u3.C ∧
    (handlePaymentProposeMsg envOK u3 m3b).C.State = State.PaymentAccepted := by
  decide

/-- Witness for the amended C3 at the concrete open channel. -/
theorem C3_witness :
    (handlePaymentProposeMsg envOK u3 m3).C = u3.C ∧
    ((handlePaymentProposeMsg envOK u3 m3b).C.State = State.PaymentAccepted ∧
      (handlePaymentProposeMsg envOK u3 m3b).C.RoundNumber = u3.C.RoundNumber + 1) :=
  ⟨(C3_amended_round_check envOK u3 m3 (by decide)).1 (by decide) (by decide),
   (C3_amended_round_check envOK u3 m3b (by decide)).2 (by decide) (by decide)
     (by decide) (by decide) (by decide) (by decide) (by decide) (by decide)
     (by decide)⟩

/-- An updater in state `Open` (not `PaymentProposed`) with a stale
pending amount, receiving a payment-accept message. -/
def uC1 : Updater :=
  { C := { chBase with PendingAmountSent := 5 }, LedgerTime := 45, Seed := some 9 }

/-- Evaluation of C1's failing input: `handlePaymentAcceptMsg` has no
FSM-state guard, so in state `Open` it does not return `UnexpectedState`;
it runs to completion (nil error) and mutates the balances. -/
theorem C1_code_bug_eval :
    uC1.C.State = State.Open ∧
    (handlePaymentAcceptMsg envOK uC1 mAcc).err = none ∧
    (handlePaymentAcceptMsg envOK uC1 mAcc).C.GuestAmount ≠ uC1.C.GuestAmount ∧
    (handlePaymentAcceptMsg envOK uC1 mAcc).C.HostAmount ≠ uC1.C.HostAmount := by
  decide

/-- `proposeOpenBranch` never returns an error. -/
theorem proposeOpenBranch_err (env : Env) (u : Updater) (m : PaymentProposeMsg)
    (g : Option Nat) (t : Nat) : (proposeOpenBranch env u m g t).err = none := by
  simp only [proposeOpenBranch]
  repeat' split
  all_goals rfl

/-- `proposeCollisionBranch` never returns an error. -/
theorem proposeCollisionBranch_err (u : Updater) (m : PaymentProposeMsg) :
    (proposeCollisionBranch u m).err = none := by
  simp only [proposeCollisionBranch]
  repeat' split
  all_goals rfl

/-- On error, `handleChannelProposeMsg` leaves the channel unchanged. -/
theorem errFrame_channelPropose (env : Env) (u : Updater) (m : Message)
    (p : ChannelProposeMsg) (h : (handleChannelProposeMsg env u m p).err ≠ none) :
    (handleChannelProposeMsg env u m p).C = u.C := by
  revert h
  simp only [handleChannelProposeMsg]
  repeat' split
  all_goals intro h
  all_goals first
    | (simp at h; done)
    | rfl

/-- On error, `handleChannelAcceptMsg` leaves the channel unchanged except
possibly the stored round-1 ratchet tx. -/
theorem errFrame_channelAccept (env : Env) (u : Updater) (a : ChannelAcceptMsg)
    (h : (handleChannelAcceptMsg env u a).err ≠ none) :
    ∃ r, (handleChannelAcceptMsg env u a).C = { u.C with CurrentRatchetTx := r } := by
  revert h
  simp only [handleChannelAcceptMsg]
  repeat' split
  all_goals intro h
  all_goals first
    | (simp at h; done)
    | exact ⟨_, rfl⟩

/-- On error, `handlePaymentProposeMsg` leaves the channel unchanged. -/
theorem errFrame_paymentPropose (env : Env) (u : Updater) (m : PaymentProposeMsg)
    (h : (handlePaymentProposeMsg env u m).err ≠ none) :
    (handlePaymentProposeMsg env u m).C = u.C := by
  revert h
  simp only [handlePaymentProposeMsg]
  repeat' split
  all_goals intro h
  all_goals first
    | (simp at h; done)
    | rfl
    | (exfalso; rw [proposeOpenBranch_err] at h; exact h rfl)
    | (exfalso; rw [proposeCollisionBranch_err] at h; exact h rfl)

/-- On error, `handlePaymentAcceptMsg` leaves the channel unchanged except
the pending balance shift and possibly the stored settlement-tx set. -/
theorem errFrame_paymentAccept (env : Env) (u : Updater) (a : PaymentAcceptMsg)
    (h : (handlePaymentAcceptMsg env u a).err ≠ none) :
    ∃ hA gA curG curH cpG cpH,
      (handlePaymentAcceptMsg env u a).C =
        { u.C with HostAmount := hA, GuestAmount := gA,
                   CurrentSettleWithGuestTx := curG, CurrentSettleWithHostTx := curH,
                   CounterpartyLatestSettleWithGuestTx := cpG,
                   CounterpartyLatestSettleWithHostTx := cpH } := by
  revert h
  cases hR : u.C.Role <;>
  · simp only [handlePaymentAcceptMsg, acceptApplyPending, hR]
    repeat' split
    all_goals intro h
    all_goals first
      | (simp at h; done)
      | exact ⟨_, _, _, _, _, _, rfl⟩

/-- On error, `handlePaymentCompleteMsg` leaves the channel unchanged
except the delta balance update and possibly the promoted current
settlement txes. -/
theorem errFrame_paymentComplete (env : Env) (u : Updater) (m : PaymentCompleteMsg)
    (h : (handlePaymentCompleteMsg env u m).err ≠ none) :
    ∃ hA gA tg th,
      (handlePaymentCompleteMsg env u m).C =
        { u.C with HostAmount := hA, GuestAmount := gA,
                   CurrentSettleWithGuestTx := tg, CurrentSettleWithHostTx := th } := by
  revert h
  cases hR : u.C.Role <;>
  · simp only [handlePaymentCompleteMsg, hR]
    repeat' split
    all_goals intro h
    all_goals first
      | (simp at h; done)
      | exact ⟨_, _, _, _, rfl⟩
      | exact ⟨_, _, _, _, by rw [← hR]⟩

/-- On error, `handleCloseMsg` leaves the channel unchanged. -/
theorem errFrame_close (env : Env) (u : Updater) (m : CloseMsg)
    (h : (handleCloseMsg env u m).err ≠ none) :
    (handleCloseMsg env u m).C = u.C := by
  revert h
  simp only [handleCloseMsg]
  repeat' split
  all_goals intro h
  all_goals first
    | (simp at h; done)
    | rfl

/-- Counterexample to C2 as stated: a signature-verification failure in
`handlePaymentCompleteMsg` happens after the balances were mutated in
place, so the handler returns an error with the channel record changed. -/
theorem C2_counterexample :
    (handlePaymentCompleteMsg envFailVerify uCmp mCmp).err ≠ none ∧
    (handlePaymentCompleteMsg envFailVerify uCmp mCmp).C ≠ uCmp.C ∧
    (handlePaymentCompleteMsg envFailVerify uCmp mCmp).C.GuestAmount =
      uCmp.C.GuestAmount + 10 := by
  decide

/-- C2 amended: on a non-nil error each handler leaves the channel record
unchanged, except that `handleChannelAcceptMsg` may already have stored the
round-1 ratchet tx, `handlePaymentAcceptMsg` may already have applied the
pending balance shift and stored the new settlement-tx set, and
`handlePaymentCompleteMsg` may already have applied the pending delta and
promoted the counterparty settlement txes; all other fields are intact. -/
theorem C2_error_frames :
    (∀ (env : Env) (u : Updater) (m : Message) (p : ChannelProposeMsg),
      (handleChannelProposeMsg env u m p).err ≠ none →
      (handleChannelProposeMsg env u m p).C = u.C) ∧
    (∀ (env : Env) (u : Updater) (a : ChannelAcceptMsg),
      (handleChannelAcceptMsg env u a).err ≠ none →
      ∃ r, (handleChannelAcceptMsg env u a).C = { u.C with CurrentRatchetTx := r }) ∧
    (∀ (env : Env) (u : Updater) (m : PaymentProposeMsg),
      (handlePaymentProposeMsg env u m).err ≠ none →
      (handlePaymentProposeMsg env u m).C = u.C) ∧
    (∀ (env : Env) (u : Updater) (a : PaymentAcceptMsg),
      (handlePaymentAcceptMsg env u a).err ≠ none →
      ∃ hA gA curG curH cpG cpH,
        (handlePaymentAcceptMsg env u a).C =
          { u.C with HostAmount := hA, GuestAmount := gA,
                     CurrentSettleWithGuestTx := curG, CurrentSettleWithHostTx := curH,
                     CounterpartyLatestSettleWithGuestTx := cpG,
                     CounterpartyLatestSettleWithHostTx := cpH }) ∧
    (∀ (env : Env) (u : Updater) (m : PaymentCompleteMsg),
      (handlePaymentCompleteMsg env u m).err ≠ none →
      ∃ hA gA tg th,
        (handlePaymentCompleteMsg env u m).C =
          { u.C with HostAmount := hA, GuestAmount := gA,
                     CurrentSettleWithGuestTx := tg, CurrentSettleWithHostTx := th }) ∧
    (∀ (env : Env) (u : Updater) (m : CloseMsg),
      (handleCloseMsg env u m).err ≠ none → (handleCloseMsg env u m).C = u.C) :=
  ⟨errFrame_channelPropose, errFrame_channelAccept, errFrame_paymentPropose,
   errFrame_paymentAccept, errFrame_paymentComplete, errFrame_close⟩

/-- Witness for the amended C2 at the concrete failing verification. -/
theorem C2_witness :
    ∃ hA gA tg th,
      (handlePaymentCompleteMsg envFailVerify uCmp mCmp).C =
        { uCmp.C with HostAmount := hA, GuestAmount := gA,
                      CurrentSettleWithGuestTx := tg, CurrentSettleWithHostTx := th } :=
  C2_error_frames.2.2.2.2.1 envFailVerify uCmp mCmp (by decide)

/-- With a zero post-payment GuestAmount, a present sender settle-with-guest
signature makes the settlement step fail with `ErrUnusedSettleWithGuestSig`. -/
theorem proposeSettleStep_unused (env : Env) (ch2 : Channel) (m : PaymentProposeMsg)
    (k : String) (hz : ch2.GuestAmount = 0)
    (hsig : m.SenderSettleWithGuestSig.Signature ≠ none) :
    proposeSettleStep env ch2 m k = Except.error Err.unusedSettleWithGuestSig := by
  simp only [proposeSettleStep]
  rw [if_pos hz, if_pos hsig]

/-- With a nonzero post-payment GuestAmount the settlement step builds the
settle-with-guest tx and propagates a failed verification, wrapped. -/
theorem proposeSettleStep_guestVerifyFail (env : Env) (ch2 : Channel)
    (m : PaymentProposeMsg) (k : String) (gtx : Nat) (e : Nat)
    (hnz : ch2.GuestAmount ≠ 0)
    (hb : env.buildSettleWithGuestTx ch2 m.PaymentTime = Except.ok gtx)
    (hv : env.verifySig gtx k m.SenderSettleWithGuestSig = Except.error e) :
    proposeSettleStep env ch2 m k =
      Except.error (Err.wrap "settle with guest tx" (Err.ext e)) := by
  simp only [proposeSettleStep]
  rw [if_neg hnz]
  simp only [hb, hv]

/-- `handlePaymentProposeMsg` surfaces a settlement-step error unchanged
(and leaves the channel untouched) once the early validations pass. -/
theorem handlePaymentProposeMsg_settleErr (env : Env) (u : Updater)
    (m : PaymentProposeMsg) (k : String) (e : Err)
    (hst3 : u.C.State = State.Open ∨ u.C.State = State.PaymentProposed ∨
      u.C.State = State.AwaitingPaymentMerge)
    (hamt : 0 ≤ m.PaymentAmount)
    (hbg : u.C.Role = Role.Guest → m.PaymentAmount ≤ u.C.HostAmount)
    (hbh : u.C.Role = Role.Host → m.PaymentAmount ≤ u.C.GuestAmount)
    (hk : env.parse (verifyAddr u.C) = Except.ok k)
    (hS : proposeSettleStep env (proposeCh2 u.C m.PaymentAmount) m k = Except.error e) :
    handlePaymentProposeMsg env u m = ⟨some e, u.C, u.HSeqnum⟩ := by
  cases hR : u.C.Role
  case Host =>
    have hb := hbh hR
    simp only [handlePaymentProposeMsg, hR, hk, hS]
    rw [if_neg (by rcases hst3 with h3|h3|h3 <;> simp [h3]), if_neg (by omega),
        if_neg (by simp only [decide_eq_true_eq]; omega)]
  case Guest =>
    have hb := hbg hR
    simp only [handlePaymentProposeMsg, hR, hk, hS]
    rw [if_neg (by rcases hst3 with h3|h3|h3 <;> simp [h3]), if_neg (by omega),
        if_neg (by simp only [decide_eq_true_eq]; omega)]

/-- With a zero post-payment GuestAmount, a present recipient
settle-with-guest signature makes the guest step fail with
`ErrUnusedSettleWithGuestSig`. -/
theorem acceptGuestStep_unused (env : Env) (c1 : Channel) (a : PaymentAcceptMsg)
    (k : String) (s : DecoratedSignature) (hz : c1.GuestAmount = 0)
    (hsig : a.RecipientSettleWithGuestSig = some s) :
    acceptGuestStep env c1 a k = Except.error Err.unusedSettleWithGuestSig := by
  simp only [acceptGuestStep]
  rw [if_pos hz]
  simp only [hsig]

/-- With a nonzero post-payment GuestAmount the guest step builds the
settle-with-guest tx and propagates a failed verification, wrapped. -/
theorem acceptGuestStep_verifyFail (env : Env) (c1 : Channel) (a : PaymentAcceptMsg)
    (k : String) (gtx : Nat) (gsig : DecoratedSignature) (e : Nat)
    (hnz : c1.GuestAmount ≠ 0)
    (hb : env.buildSettleWithGuestTx c1 c1.PendingPaymentTime = Except.ok gtx)
    (hsig : a.RecipientSettleWithGuestSig = some gsig)
    (hv : env.verifySig gtx k gsig = Except.error e) :
    acceptGuestStep env c1 a k =
      Except.error (Err.wrap "settle with guest tx" (Err.ext e)) := by
  simp only [acceptGuestStep]
  rw [if_neg hnz]
  simp only [hb, hsig, hv]

/-- `handlePaymentAcceptMsg` surfaces a guest-step error unchanged once
the ratchet and settle-with-host verifications pass. -/
theorem handlePaymentAcceptMsg_guestErr (env : Env) (u : Updater)
    (a : PaymentAcceptMsg) (k : String) (rtx htx : Nat) (e : Err)
    (hk : env.parse (verifyAddr u.C) = Except.ok k)
    (hbr : ∀ ch t acct q, env.buildRatchetTx ch t acct q = Except.ok rtx)
    (hvr : env.verifySig rtx k a.RecipientRatchetSig = Except.ok ())
    (hhost : (if (acceptApplyPending u.C).GuestAmount = 0 then
        env.buildSettleOnlyWithHostTx (acceptApplyPending u.C)
          (acceptApplyPending u.C).PendingPaymentTime
      else
        env.buildSettleWithHostTx (acceptApplyPending u.C)
          (acceptApplyPending u.C).PendingPaymentTime) = Except.ok htx)
    (hvh : env.verifySig htx k a.RecipientSettleWithHostSig = Except.ok ())
    (hG : acceptGuestStep env (acceptApplyPending u.C) a k = Except.error e) :
    handlePaymentAcceptMsg env u a = ⟨some e, acceptApplyPending u.C, u.HSeqnum⟩ := by
  cases hR : u.C.Role <;>
  · simp only [handlePaymentAcceptMsg, hR, hk, hbr, hvr, hhost, hvh, hG]

/-- C7: when the validated payment drives the post-payment GuestAmount to
exactly 0, a present settle-with-guest signature yields the
`UnusedSettleWithGuestSig` error in both `handlePaymentPropose` (non-empty
`SenderSettleWithGuestSig`) and `handlePaymentAccept` (non-nil
`RecipientSettleWithGuestSig`); when it is nonzero, both handlers build the
settle-with-guest transaction and verify that signature, surfacing a
verification failure wrapped as a settle-with-guest error. -/
theorem C7_unused_settle_with_guest :
    (∀ (env : Env) (u : Updater) (m : PaymentProposeMsg) (k : String),
      (u.C.State = State.Open ∨ u.C.State = State.PaymentProposed ∨
        u.C.State = State.AwaitingPaymentMerge) →
      0 ≤ m.PaymentAmount →
      (u.C.Role = Role.Guest → m.PaymentAmount ≤ u.C.HostAmount) →
      (u.C.Role = Role.Host → m.PaymentAmount ≤ u.C.GuestAmount) →
      env.parse (verifyAddr u.C) = Except.ok k →
      (proposeCh2 u.C m.PaymentAmount).GuestAmount = 0 →
      m.SenderSettleWithGuestSig.Signature ≠ none →
      (handlePaymentProposeMsg env u m).err = some Err.unusedSettleWithGuestSig ∧
      (handlePaymentProposeMsg env u m).C = u.C) ∧
    (∀ (env : Env) (u : Updater) (m : PaymentProposeMsg) (k : String) (gtx e : Nat),
      (u.C.State = State.Open ∨ u.C.State = State.PaymentProposed ∨
        u.C.State = State.AwaitingPaymentMerge) →
      0 ≤ m.PaymentAmount →
      (u.C.Role = Role.Guest → m.PaymentAmount ≤ u.C.HostAmount) →
      (u.C.Role = Role.Host → m.PaymentAmount ≤ u.C.GuestAmount) →
      env.parse (verifyAddr u.C) = Except.ok k →
      (proposeCh2 u.C m.PaymentAmount).GuestAmount ≠ 0 →
      env.buildSettleWithGuestTx (proposeCh2 u.C m.PaymentAmount) m.PaymentTime =
        Except.ok gtx →
      env.verifySig gtx k m.SenderSettleWithGuestSig = Except.error e →
      (handlePaymentProposeMsg env u m).err =
        some (Err.wrap "settle with guest tx" (Err.ext e)) ∧
      (handlePaymentProposeMsg env u m).C = u.C) ∧
    (∀ (env : Env) (u : Updater) (a : PaymentAcceptMsg) (k : String) (rtx htx : Nat)
        (s : DecoratedSignature),
      env.parse (verifyAddr u.C) = Except.ok k →
      (∀ ch t acct q, env.buildRatchetTx ch t acct q = Except.ok rtx) →
      env.verifySig rtx k a.RecipientRatchetSig = Except.ok () →
      (if (acceptApplyPending u.C).GuestAmount = 0 then
          env.buildSettleOnlyWithHostTx (acceptApplyPending u.C)
            (acceptApplyPending u.C).PendingPaymentTime
        else
          env.buildSettleWithHostTx (acceptApplyPending u.C)
            (acceptApplyPending u.C).PendingPaymentTime) = Except.ok htx →
      env.verifySig htx k a.RecipientSettleWithHostSig = Except.ok () →
      (acceptApplyPending u.C).GuestAmount = 0 →
      a.RecipientSettleWithGuestSig = some s →
      (handlePaymentAcceptMsg env u a).err = some Err.unusedSettleWithGuestSig) ∧
    (∀ (env : Env) (u : Updater) (a : PaymentAcceptMsg) (k : String)
        (rtx htx gtx : Nat) (gsig : DecoratedSignature) (e : Nat),
      env.parse (verifyAddr u.C) = Except.ok k →
      (∀ ch t acct q, env.buildRatchetTx ch t acct q = Except.ok rtx) →
      env.verifySig rtx k a.RecipientRatchetSig = Except.ok () →
      (if (acceptApplyPending u.C).GuestAmount = 0 then
          env.buildSettleOnlyWithHostTx (acceptApplyPending u.C)
            (acceptApplyPending u.C).PendingPaymentTime
        else
          env.buildSettleWithHostTx (acceptApplyPending u.C)
            (acceptApplyPending u.C).PendingPaymentTime) = Except.ok htx →
      env.verifySig htx k a.RecipientSettleWithHostSig = Except.ok () →
      (acceptApplyPending u.C).GuestAmount ≠ 0 →
      env.buildSettleWithGuestTx (acceptApplyPending u.C)
        (acceptApplyPending u.C).PendingPaymentTime = Except.ok gtx →
      a.RecipientSettleWithGuestSig = some gsig →
      env.verifySig gtx k gsig = Except.error e →
      (handlePaymentAcceptMsg env u a).err =
        some (Err.wrap "settle with guest tx" (Err.ext e))) := by
  refine ⟨?_, ?_, ?_, ?_⟩
  · intro env u m k hst3 hamt hbg hbh hk hz hsig
    rw [handlePaymentProposeMsg_settleErr env u m k _ hst3 hamt hbg hbh hk
      (proposeSettleStep_unused env _ m k hz hsig)]
    exact ⟨rfl, rfl⟩
  · intro env u m k gtx e hst3 hamt hbg hbh hk hnz hb hv
    rw [handlePaymentProposeMsg_settleErr env u m k _ hst3 hamt hbg hbh hk
      (proposeSettleStep_guestVerifyFail env _ m k gtx e hnz hb hv)]
    exact ⟨rfl, rfl⟩
  · intro env u a k rtx htx s hk hbr hvr hhost hvh hz hsig
    rw [handlePaymentAcceptMsg_guestErr env u a k rtx htx _ hk hbr hvr hhost hvh
      (acceptGuestStep_unused env _ a k s hz hsig)]
  · intro env u a k rtx htx gtx gsig e hk hbr hvr hhost hvh hnz hb hsig hv
    rw [handlePaymentAcceptMsg_guestErr env u a k rtx htx _ hk hbr hvr hhost hvh
      (acceptGuestStep_verifyFail env _ a k gtx gsig e hnz hb hsig hv)]

/-- A Host-side channel whose incoming 50-unit proposal empties the guest
balance. -/
def uZ1 : Updater :=
  { C := { chBase with Role := Role.Host, GuestAmount := 50 },
    LedgerTime := 45, Seed := some 9 }

/-- A 50-unit proposal carrying a (superfluous) settle-with-guest sig. -/
def mZ1 : PaymentProposeMsg := ⟨6, 40, 50, ⟨some 8⟩, ⟨some 8⟩⟩

/-- A Guest-side channel whose pending outbound payment empties its own
balance on acceptance. -/
def uZ3 : Updater :=
  { C := { chBase with GuestAmount := 30, PendingAmountSent := 30 },
    LedgerTime := 45, Seed := some 9 }

/-- Witness for C7 at the four concrete scenarios. -/
theorem C7_witness :
    ((handlePaymentProposeMsg envOK uZ1 mZ1).err =
        some Err.unusedSettleWithGuestSig ∧
      (handlePaymentProposeMsg envOK uZ1 mZ1).C = uZ1.C) ∧
    ((handlePaymentProposeMsg envFailGuestVerify u3 m3b).err =
        some (Err.wrap "settle with guest tx" (Err.ext 7)) ∧
      (handlePaymentProposeMsg envFailGuestVerify u3 m3b).C = u3.C) ∧
    (handlePaymentAcceptMsg envOK uZ3 mAcc).err =
      some Err.unusedSettleWithGuestSig ∧
    (handlePaymentAcceptMsg envFailGuestVerify uAcc mAcc).err =
      some (Err.wrap "settle with guest tx" (Err.ext 7)) :=
  ⟨C7_unused_settle_with_guest.1 envOK uZ1 mZ1 "guest" (by decide) (by decide)
      (by decide) (by decide) rfl (by decide) (by decide),
   C7_unused_settle_with_guest.2.1 envFailGuestVerify u3 m3b "esc" 13 7
      (by decide) (by decide) (by decide) (by decide) rfl (by decide)
      rfl rfl,
   C7_unused_settle_with_guest.2.2.1 envOK uZ3 mAcc "esc" 10 11 ⟨some 8⟩
      rfl (fun _ _ _ _ => rfl) rfl rfl rfl
      (by decide) rfl,
   C7_unused_settle_with_guest.2.2.2 envFailGuestVerify uAcc mAcc "esc" 10 12 13
      ⟨some 8⟩ 7 rfl (fun _ _ _ _ => rfl) rfl rfl
      rfl (by decide) rfl rfl rfl⟩

/-- C8: every message built by the six outbound constructors carries
`MsgNum = LastMsgIndex + 1` and `Version = version`, the protocol version
constant 2. -/
theorem C8_msgnum_version (env : Env) (seed : Option Nat) (ch : Channel) :
    (∀ m, createChannelProposeMsg env seed ch = Except.ok m →
      m.MsgNum = ch.LastMsgIndex + 1 ∧ m.Version = version) ∧
    (∀ m, createChannelAcceptMsg env seed ch = Except.ok m →
      m.MsgNum = ch.LastMsgIndex + 1 ∧ m.Version = version) ∧
    (∀ m, createPaymentProposeMsg env seed ch = Except.ok m →
      m.MsgNum = ch.LastMsgIndex + 1 ∧ m.Version = version) ∧
    (∀ m, createPaymentAcceptMsg env seed ch = Except.ok m →
      m.MsgNum = ch.LastMsgIndex + 1 ∧ m.Version = version) ∧
    (∀ m, createPaymentCompleteMsg env seed ch = Except.ok m →
      m.MsgNum = ch.LastMsgIndex + 1 ∧ m.Version = version) ∧
    (∀ m, createCloseMsg env seed ch = Except.ok m →
      m.MsgNum = ch.LastMsgIndex + 1 ∧ m.Version = version) ∧
    version = 2 := by
  refine ⟨?_, ?_, ?_, ?_, ?_, ?_, rfl⟩
  all_goals intro m h
  all_goals revert h
  · simp only [createChannelProposeMsg, signMsg]
    repeat' split
    all_goals intro h
    all_goals first
      | (simp at h; done)
      | (injection h with h2; subst h2; exact ⟨rfl, rfl⟩)
  · simp only [createChannelAcceptMsg, signMsg]
    repeat' split
    all_goals intro h
    all_goals first
      | (simp at h; done)
      | (injection h with h2; subst h2; exact ⟨rfl, rfl⟩)
  · simp only [createPaymentProposeMsg, signMsg]
    repeat' split
    all_goals intro h
    all_goals first
      | (simp at h; done)
      | (injection h with h2; subst h2; exact ⟨rfl, rfl⟩)
  · simp only [createPaymentAcceptMsg, signMsg]
    repeat' split
    all_goals intro h
    all_goals first
      | (simp at h; done)
      | (injection h with h2; subst h2; exact ⟨rfl, rfl⟩)
  · simp only [createPaymentCompleteMsg, signMsg]
    repeat' split
    all_goals intro h
    all_goals first
      | (simp at h; done)
      | (injection h with h2; subst h2; exact ⟨rfl, rfl⟩)
  · simp only [createCloseMsg, signMsg]
    repeat' split
    all_goals intro h
    all_goals first
      | (simp at h; done)
      | (injection h with h2; subst h2; exact ⟨rfl, rfl⟩)

/-- The payment-complete message the constructor produces for `chBase`
under `envOK` with seed 9. -/
def m8 : Message :=
  { ChannelID := "esc", MsgNum := 18, Version := 2,
    PaymentCompleteMsg := some ⟨5, ⟨some 5⟩⟩, Signature := some 15 }

/-- Witness for C8: the constructed message's envelope fields at a
concrete channel. -/
theorem C8_witness : m8.MsgNum = chBase.LastMsgIndex + 1 ∧ m8.Version = version :=
  (C8_msgnum_version envOK (some 9) chBase).2.2.2.2.1 m8 (by rfl)

/-- C9 amended: a successful `handleChannelPropose` replaces the channel
with a fresh record: `GuestAcct`, `BaseSequenceNumber`,
`HostRatchetAcctSeqNum`, `GuestRatchetAcctSeqNum` and `CounterpartyAddress`
are preserved, `ID` and the parsed `EscrowAcct` come from the message's
`ChannelID`, the populated settings come from the proposal, `Role` is set
to `Guest`, `RoundNumber` to 1, `PaymentTime` to the proposal's funding
time, `KeyIndex` to the primary account index, `Passphrase` to the
updater's passphrase, the state to `AwaitingFunding`, and every remaining
field to its zero value. -/
theorem C9_channelPropose_fresh (env : Env) (u : Updater) (m : Message)
    (p : ChannelProposeMsg)
    (hst : u.C.State = State.Start)
    (hacct : p.GuestAcct = u.C.GuestAcct)
    (esc : String)
    (hset : env.setAddress m.ChannelID = Except.ok esc) :
    handleChannelProposeMsg env u m p =
      ⟨none,
       { zeroChannel with
         ID := m.ChannelID, Role := Role.Guest, HostAmount := p.HostAmount,
         MaxRoundDuration := p.MaxRoundDuration, FinalityDelay := p.FinalityDelay,
         FundingTime := p.FundingTime, PaymentTime := p.FundingTime,
         HostAcct := p.HostAcct, GuestAcct := u.C.GuestAcct, EscrowAcct := esc,
         HostRatchetAcct := p.HostRatchetAcct, GuestRatchetAcct := p.GuestRatchetAcct,
         RoundNumber := 1, BaseSequenceNumber := u.C.BaseSequenceNumber,
         HostRatchetAcctSeqNum := u.C.HostRatchetAcctSeqNum,
         GuestRatchetAcctSeqNum := u.C.GuestRatchetAcctSeqNum,
         KeyIndex := PrimaryAccountIndex, Passphrase := u.Passphrase,
         CounterpartyAddress := u.C.CounterpartyAddress,
         ChannelFeerate := p.Feerate, State := State.AwaitingFunding },
       u.HSeqnum⟩ := by
  simp only [handleChannelProposeMsg, hst, hset, transitionTo]
  rw [if_neg (by simp), if_neg (by simp [hacct])]

/-- A Guest-side channel in `Start` with nonzero preserved fields. -/
def u9 : Updater :=
  { C := { zeroChannel with
             GuestAcct := "guest", RoundNumber := 7,
             BaseSequenceNumber := 11, HostRatchetAcctSeqNum := 21,
             GuestRatchetAcctSeqNum := 22, CounterpartyAddress := "peer" },
    Passphrase := "net", LedgerTime := 0, Seed := some 9 }

/-- A channel-proposal envelope naming the escrow account. -/
def m9 : Message := { ChannelID := "esc2" }

/-- The proposal payload for the counterexample channel. -/
def p9 : ChannelProposeMsg := ⟨"host", "guest", "hr", "gr", 60, 10, 44, 1000, 3, 5⟩

/-- Counterexample to C9 as stated: on a successful `handleChannelPropose`
the new record's `RoundNumber` is 1 and its `Passphrase` is the updater's
passphrase — neither preserved, taken from the message, nor reset to zero,
contradicting the claim's "resets every other field to its zero value". -/
theorem C9_counterexample :
    (handleChannelProposeMsg envOK u9 m9 p9).err = none ∧
    (handleChannelProposeMsg envOK u9 m9 p9).C.RoundNumber = 1 ∧
    (handleChannelProposeMsg envOK u9 m9 p9).C.Passphrase = "net" := by
  decide

/-- Witness for the amended C9 at the concrete proposal. -/
theorem C9_witness :
    handleChannelProposeMsg envOK u9 m9 p9 =
      ⟨none,
       { zeroChannel with
         ID := m9.ChannelID, Role := Role.Guest, HostAmount := p9.HostAmount,
         MaxRoundDuration := p9.MaxRoundDuration, FinalityDelay := p9.FinalityDelay,
         FundingTime := p9.FundingTime, PaymentTime := p9.FundingTime,
         HostAcct := p9.HostAcct, GuestAcct := u9.C.GuestAcct, EscrowAcct := "esc2",
         HostRatchetAcct := p9.HostRatchetAcct, GuestRatchetAcct := p9.GuestRatchetAcct,
         RoundNumber := 1, BaseSequenceNumber := u9.C.BaseSequenceNumber,
         HostRatchetAcctSeqNum := u9.C.HostRatchetAcctSeqNum,
         GuestRatchetAcctSeqNum := u9.C.GuestRatchetAcctSeqNum,
         KeyIndex := PrimaryAccountIndex, Passphrase := u9.Passphrase,
         CounterpartyAddress := u9.C.CounterpartyAddress,
         ChannelFeerate := p9.Feerate, State := State.AwaitingFunding },
       u9.HSeqnum⟩ :=
  C9_channelPropose_fresh envOK u9 m9 p9 (by decide) (by decide) "esc2" rfl
